import Mathlib

/-!
Verification of the nexsock-protocol-core header codec and transport read
path.  Bytes are modelled as natural numbers below 256; the Rust machine
integers u8/u16/u32/u64 are modelled as Nat with explicit masking or
`% 2 ^ w` wherever the Rust code would truncate.  Byte buffers are lists
of bytes; streams and cursored buffers carry an explicit position.
-/

namespace Nexsock

/-- Constant HEADER_SIZE from the crate: a wire header is 15 bytes. -/
def HEADER_SIZE : Nat := 15

/-- MessageFlags from message_flags.rs: a newtype over a 16-bit bitmask. -/
structure MessageFlags where
  bits : Nat
deriving DecidableEq, Repr

namespace MessageFlags

/-- MessageFlags::NONE. -/
def NONE : MessageFlags := ⟨0⟩

/-- MessageFlags::COMPRESSED, bit 0. -/
def COMPRESSED : MessageFlags := ⟨1⟩

/-- MessageFlags::ENCRYPTED, bit 1. -/
def ENCRYPTED : MessageFlags := ⟨2⟩

/-- MessageFlags::REQUIRES_ACK, bit 2. -/
def REQUIRES_ACK : MessageFlags := ⟨4⟩

/-- MessageFlags::HAS_PAYLOAD, bit 3. -/
def HAS_PAYLOAD : MessageFlags := ⟨8⟩

/-- MessageFlags::contains: every bit of `other` is set in `self`. -/
def contains (self other : MessageFlags) : Bool :=
  (self.bits &&& other.bits) == other.bits

/-- The BitOr impl on MessageFlags. -/
def bitor (a b : MessageFlags) : MessageFlags := ⟨a.bits ||| b.bits⟩

/-- The From u16 impl on MessageFlags. -/
def ofU16 (flags : Nat) : MessageFlags := ⟨flags⟩

end MessageFlags

/-- Header from header/mod.rs: id and version are u8 fields, flags a
MessageFlags, payload_len a u32, sequence_number a u64. -/
structure Header where
  id : Nat
  version : Nat
  flags : MessageFlags
  payload_len : Nat
  sequence_number : Nat
deriving DecidableEq, Repr

namespace Header

/-- Header::LAST_SIX_BITS = 0x3F. -/
def LAST_SIX_BITS : Nat := 0x3F

/-- Header::LAST_TWO_BITS = 0x03. -/
def LAST_TWO_BITS : Nat := 0x03

/-- Header::new stores the five raw fields with no masking or validation. -/
def new (id version : Nat) (flags : MessageFlags) (payload_len sequence_number : Nat) :
    Header :=
  ⟨id, version, flags, payload_len, sequence_number⟩

end Header

/-- Big-endian reassembly of a u16 from two bytes, as in u16::from_be_bytes. -/
def u16_from_be (b0 b1 : Nat) : Nat := (b0 <<< 8) ||| b1

/-- Big-endian reassembly of a u32 from four bytes, as in u32::from_be_bytes. -/
def u32_from_be (b0 b1 b2 b3 : Nat) : Nat :=
  (b0 <<< 24) ||| (b1 <<< 16) ||| (b2 <<< 8) ||| b3

/-- Big-endian reassembly of a u64 from eight bytes, as in u64::from_be_bytes. -/
def u64_from_be (b0 b1 b2 b3 b4 b5 b6 b7 : Nat) : Nat :=
  (b0 <<< 56) ||| (b1 <<< 48) ||| (b2 <<< 40) ||| (b3 <<< 32) |||
  (b4 <<< 24) ||| (b5 <<< 16) ||| (b6 <<< 8) ||| b7

/-- The two big-endian bytes of a u16 value, as written by to_be. -/
def u16_be_bytes (v : Nat) : List Nat := [(v >>> 8) % 256, v % 256]

/-- The four big-endian bytes of a u32 value, as written by to_be. -/
def u32_be_bytes (v : Nat) : List Nat :=
  [(v >>> 24) % 256, (v >>> 16) % 256, (v >>> 8) % 256, v % 256]

/-- The eight big-endian bytes of a u64 value, as written by to_be. -/
def u64_be_bytes (v : Nat) : List Nat :=
  [(v >>> 56) % 256, (v >>> 48) % 256, (v >>> 40) % 256, (v >>> 32) % 256,
   (v >>> 24) % 256, (v >>> 16) % 256, (v >>> 8) % 256, v % 256]

namespace StandardHeaderParser

/-- StandardHeaderParser::parse from header/standard.rs: length check, then
bit extraction from byte 0 and big-endian shifts for the wider fields. -/
def parse (bytes : List Nat) : Option Header :=
  if bytes.length < HEADER_SIZE then none
  else
    let id_version := bytes.getD 0 0
    let id := (id_version &&& Header.LAST_SIX_BITS) >>> 2
    let version := id_version &&& Header.LAST_TWO_BITS
    let flags := ((bytes.getD 1 0) <<< 8) ||| bytes.getD 2 0
    let payload_len :=
      ((bytes.getD 3 0) <<< 24) ||| ((bytes.getD 4 0) <<< 16) |||
      ((bytes.getD 5 0) <<< 8) ||| bytes.getD 6 0
    let sequence_number :=
      ((bytes.getD 7 0) <<< 56) ||| ((bytes.getD 8 0) <<< 48) |||
      ((bytes.getD 9 0) <<< 40) ||| ((bytes.getD 10 0) <<< 32) |||
      ((bytes.getD 11 0) <<< 24) ||| ((bytes.getD 12 0) <<< 16) |||
      ((bytes.getD 13 0) <<< 8) ||| bytes.getD 14 0
    some (Header.new id version (MessageFlags.ofU16 flags) payload_len sequence_number)

/-- StandardHeaderParser::serialize from header/standard.rs: byte 0 packs
id (masked to 6 bits, shifted into bits 2..7) with version (masked to 2
bits); flags, payload_len and sequence_number follow big-endian. -/
def serialize (h : Header) : List Nat :=
  (((h.id &&& Header.LAST_SIX_BITS) <<< 2) ||| (h.version &&& Header.LAST_TWO_BITS)) ::
    (u16_be_bytes h.flags.bits ++ u32_be_bytes h.payload_len ++
      u64_be_bytes h.sequence_number)

end StandardHeaderParser

namespace OptimizedHeaderParser

/-- OptimizedHeaderParser::parse from header/optimized.rs: length check,
unaligned read of the first 15 bytes, then the same bit extraction for
byte 0 and from_be_bytes reassembly for the wider fields. -/
def parse (buf : List Nat) : Option Header :=
  if buf.length < HEADER_SIZE then none
  else
    let header_bytes := buf.take HEADER_SIZE
    let first_byte := header_bytes.getD 0 0
    let id := (first_byte &&& Header.LAST_SIX_BITS) >>> 2
    let version := first_byte &&& Header.LAST_TWO_BITS
    let flags := u16_from_be (header_bytes.getD 1 0) (header_bytes.getD 2 0)
    let payload_len :=
      u32_from_be (header_bytes.getD 3 0) (header_bytes.getD 4 0)
        (header_bytes.getD 5 0) (header_bytes.getD 6 0)
    let sequence_number :=
      u64_from_be (header_bytes.getD 7 0) (header_bytes.getD 8 0)
        (header_bytes.getD 9 0) (header_bytes.getD 10 0) (header_bytes.getD 11 0)
        (header_bytes.getD 12 0) (header_bytes.getD 13 0) (header_bytes.getD 14 0)
    some (Header.new id version (MessageFlags.ofU16 flags) payload_len sequence_number)

end OptimizedHeaderParser

namespace SimdHeaderParser

/-- SimdHeaderParser::parse from header/simd.rs: length check, bit
extraction from byte 0, then direct big-endian reads at offsets 1, 3, 7. -/
def parse (buf : List Nat) : Option Header :=
  if buf.length < HEADER_SIZE then none
  else
    let first_byte := buf.getD 0 0
    let id := (first_byte &&& Header.LAST_SIX_BITS) >>> 2
    let version := first_byte &&& Header.LAST_TWO_BITS
    let flags := u16_from_be (buf.getD 1 0) (buf.getD 2 0)
    let payload_len :=
      u32_from_be (buf.getD 3 0) (buf.getD 4 0) (buf.getD 5 0) (buf.getD 6 0)
    let sequence_number :=
      u64_from_be (buf.getD 7 0) (buf.getD 8 0) (buf.getD 9 0) (buf.getD 10 0)
        (buf.getD 11 0) (buf.getD 12 0) (buf.getD 13 0) (buf.getD 14 0)
    some (Header.new id version (MessageFlags.ofU16 flags) payload_len sequence_number)

/-- SimdHeaderParser::serialize from header/simd.rs: identical byte writes
to the standard serializer. -/
def serialize (h : Header) : List Nat :=
  (((h.id &&& Header.LAST_SIX_BITS) <<< 2) ||| (h.version &&& Header.LAST_TWO_BITS)) ::
    (u16_be_bytes h.flags.bits ++ u32_be_bytes h.payload_len ++
      u64_be_bytes h.sequence_number)

end SimdHeaderParser

namespace Simd2HeaderParser

/-- Simd2HeaderParser::parse from header/simd.rs: loads the lane vector
buf[1..9] and reconstructs flags from lanes [1,0] and payload_len from
lanes [5,4,3,2] (those index orders are what the source writes), then the
sequence number by a direct big-endian read at offset 7. -/
def parse (buf : List Nat) : Option Header :=
  if buf.length < HEADER_SIZE then none
  else
    let first_byte := buf.getD 0 0
    let id := (first_byte &&& Header.LAST_SIX_BITS) >>> 2
    let version := first_byte &&& Header.LAST_TWO_BITS
    let simd_vector := fun i => buf.getD (1 + i) 0
    let flags := u16_from_be (simd_vector 1) (simd_vector 0)
    let payload_len :=
      u32_from_be (simd_vector 5) (simd_vector 4) (simd_vector 3) (simd_vector 2)
    let sequence_number :=
      u64_from_be (buf.getD 7 0) (buf.getD 8 0) (buf.getD 9 0) (buf.getD 10 0)
        (buf.getD 11 0) (buf.getD 12 0) (buf.getD 13 0) (buf.getD 14 0)
    some (Header.new id version (MessageFlags.ofU16 flags) payload_len sequence_number)

end Simd2HeaderParser

/-- A bytes::Bytes buffer: backing data plus a read cursor; advance moves
the cursor forward. -/
structure ByteCursor where
  data : List Nat
  pos : Nat
deriving DecidableEq, Repr

namespace ByteCursor

/-- Remaining length visible through the cursor (Bytes::len). -/
def len (b : ByteCursor) : Nat := b.data.length - b.pos

/-- The first n visible bytes (the slice bytes[..n]). -/
def slice (b : ByteCursor) (n : Nat) : List Nat := (b.data.drop b.pos).take n

/-- Bytes::advance: move the read cursor forward by n. -/
def advance (b : ByteCursor) (n : Nat) : ByteCursor := ⟨b.data, b.pos + n⟩

end ByteCursor

/-- The provided method HeaderParser::parse_bytes from traits/header.rs,
generic over the backend's parse: reject short buffers untouched, parse
the first 15 visible bytes, and advance the cursor only on success. -/
def parse_bytes (p : List Nat → Option Header) (bytes : ByteCursor) :
    Option Header × ByteCursor :=
  if bytes.len < HEADER_SIZE then (none, bytes)
  else
    match p (bytes.slice HEADER_SIZE) with
    | none => (none, bytes)
    | some header => (some header, bytes.advance HEADER_SIZE)

/-- An async byte-stream source: the bytes it will produce and how many
have already been consumed (mirrors the crate's MockReader). -/
structure ByteStream where
  data : List Nat
  position : Nat
deriving DecidableEq, Repr

namespace ByteStream

/-- AsyncReadExt::read_exact into a length-n buffer: yields the next n
bytes and advances, or fails (UnexpectedEof) after draining the stream
when fewer than n bytes remain. -/
def read_exact (s : ByteStream) (n : Nat) : Option (List Nat × ByteStream) :=
  if s.data.length - s.position < n then none
  else some ((s.data.drop s.position).take n, ⟨s.data, s.position + n⟩)

end ByteStream

/-- The error string of Transport::read_magic. -/
def invalidMagicMsg : String := "Invalid protocol magic bytes"

/-- The magic preamble b"NEX\0" as bytes. -/
def MAGIC : List Nat := [78, 69, 88, 0]

/-- Observable outcome of Transport::read_message for the stages the
claims concern: Ok(()) without a body read, entry into read_body with the
parsed header, an Err of ProtocolError::Io with its message, or a panic
(Option::unwrap on None). Each outcome carries the stream state reached. -/
inductive ReadOutcome where
  | ok (s : ByteStream)
  | readBody (h : Header) (s : ByteStream)
  | ioError (msg : String) (s : ByteStream)
  | panicked (s : ByteStream)
deriving DecidableEq, Repr

/-- Transport::read_magic from transport.rs: read exactly 4 bytes and
compare them with b"NEX\0". -/
def read_magic (s : ByteStream) : Except (String × ByteStream) ByteStream :=
  match s.read_exact 4 with
  | none => .error ("unexpected end of file", ⟨s.data, s.data.length⟩)
  | some (magic, s1) =>
    if magic = MAGIC then .ok s1
    else .error (invalidMagicMsg, s1)

/-- Transport::read_message from transport.rs.  After the magic check the
source builds the header buffer with BytesMut::with_capacity(HEADER_SIZE),
which has length 0, so its read_exact call fills 0 bytes; the parse of
that buffer is then unwrapped, a panic whenever it yields None. -/
def read_message (s : ByteStream) : ReadOutcome :=
  match read_magic s with
  | .error (msg, s1) => .ioError msg s1
  | .ok s1 =>
    match s1.read_exact 0 with
    | none => .ioError "unexpected end of file" ⟨s1.data, s1.data.length⟩
    | some (buf, s2) =>
      match StandardHeaderParser.parse buf with
      | none => .panicked s2
      | some header =>
        if header.flags.contains MessageFlags.HAS_PAYLOAD = true ∧ 0 < header.payload_len
        then .readBody header s2
        else .ok s2

/-- The 15-byte test vector HEADER_BYTES from header/mod.rs. -/
def TEST_VECTOR : List Nat := [6, 0, 9, 0, 0, 2, 0, 0, 0, 0, 0, 0, 0, 0, 1]

/-- Claim C1, code evaluated at the failing input: the header with id 16
(within the 6-bit range the claim quantifies over) serializes to byte 0
equal to 0x40, but every backend's parse extracts id as
(byte0 AND 0x3F) >>> 2 = 0, so deserialize(serialize(h)) recovers id 0,
not 16, under all four backends. -/
theorem roundtrip_drops_high_id_bits :
    StandardHeaderParser.parse
        (StandardHeaderParser.serialize (Header.new 16 0 MessageFlags.NONE 0 0))
      = some (Header.new 0 0 (MessageFlags.ofU16 0) 0 0)
    ∧ OptimizedHeaderParser.parse
        (StandardHeaderParser.serialize (Header.new 16 0 MessageFlags.NONE 0 0))
      = some (Header.new 0 0 (MessageFlags.ofU16 0) 0 0)
    ∧ SimdHeaderParser.parse
        (StandardHeaderParser.serialize (Header.new 16 0 MessageFlags.NONE 0 0))
      = some (Header.new 0 0 (MessageFlags.ofU16 0) 0 0)
    ∧ Simd2HeaderParser.parse
        (StandardHeaderParser.serialize (Header.new 16 0 MessageFlags.NONE 0 0))
      = some (Header.new 0 0 (MessageFlags.ofU16 0) 0 0)
    ∧ Header.new 0 0 (MessageFlags.ofU16 0) 0 0 ≠ Header.new 16 0 MessageFlags.NONE 0 0 := by
  refine ⟨rfl, rfl, rfl, rfl, ?_⟩
  decide

/-- Claim C2, code evaluated at the failing input: on the 15-byte input
whose byte 0 is 0x40, the decoded id is 0, whereas byte0 >>> 2 (bits 2-7
of byte 0, as the claim states) is 16: the parser masks byte 0 with 0x3F
before shifting, so bits 6-7 of byte 0 never reach the id. -/
theorem parse_id_masks_before_shift :
    (StandardHeaderParser.parse (64 :: List.replicate 14 0)).map Header.id
      ≠ some (((64 :: List.replicate 14 0).getD 0 0) >>> 2)
    ∧ (StandardHeaderParser.parse (64 :: List.replicate 14 0)).map Header.id = some 0
    ∧ (((64 :: List.replicate 14 0).getD 0 0) >>> 2) = 16 := by
  decide

/-- Claim C3, code evaluated at the failing input: on a stream holding the
correct magic followed by a complete, valid 15-byte header, read_message
reaches the panic outcome with only the 4 magic bytes consumed — the
header buffer is created with length 0, read_exact fills no bytes, parse
of the empty buffer yields None, and the unwrap panics. -/
theorem read_message_panics_despite_valid_stream :
    read_message ⟨MAGIC ++ TEST_VECTOR, 0⟩
      = ReadOutcome.panicked ⟨MAGIC ++ TEST_VECTOR, 4⟩ := by
  rfl

/-- Claim C4, code evaluated at the failing input: on the repository's own
15-byte test vector, the Standard backend decodes flags 9 and payload_len
0x200 while the Simd2 backend decodes flags 0x900 and payload_len 0x20000
(its lane indices reverse the byte order), so deserialize is not
field-identical across every pair of backends. -/
theorem simd2_parse_disagrees_with_standard :
    StandardHeaderParser.parse TEST_VECTOR
      = some (Header.new 1 2 (MessageFlags.ofU16 9) 512 1)
    ∧ Simd2HeaderParser.parse TEST_VECTOR
      = some (Header.new 1 2 (MessageFlags.ofU16 2304) 131072 1)
    ∧ StandardHeaderParser.parse TEST_VECTOR ≠ Simd2HeaderParser.parse TEST_VECTOR := by
  refine ⟨rfl, rfl, ?_⟩
  decide

/-- Claim C5: the header with id 1, version 2, flags COMPRESSED or-ed with
HAS_PAYLOAD, payload_len 0x200 and sequence_number 1 serializes to exactly
the 15 bytes [0x06, 0x00, 0x09, 0x00, 0x00, 0x02, 0x00, 0x00, 0x00, 0x00,
0x00, 0x00, 0x00, 0x00, 0x01], under both serializer backends. -/
theorem serialize_literal_vector :
    StandardHeaderParser.serialize
        (Header.new 1 2 (MessageFlags.bitor MessageFlags.COMPRESSED MessageFlags.HAS_PAYLOAD)
          512 1)
      = [6, 0, 9, 0, 0, 2, 0, 0, 0, 0, 0, 0, 0, 0, 1]
    ∧ SimdHeaderParser.serialize
        (Header.new 1 2 (MessageFlags.bitor MessageFlags.COMPRESSED MessageFlags.HAS_PAYLOAD)
          512 1)
      = [6, 0, 9, 0, 0, 2, 0, 0, 0, 0, 0, 0, 0, 0, 1] := by
  exact ⟨rfl, rfl⟩

/-- Claim C6: when the stream's first 4 bytes are not the magic sequence
NEX followed by a NUL, read_message fails with the I/O invalid-magic
failure and exactly 4 bytes have been consumed from the stream. -/
theorem read_message_rejects_bad_magic (data : List Nat)
    (hlen : 4 ≤ data.length) (hmagic : data.take 4 ≠ MAGIC) :
    read_message ⟨data, 0⟩ = ReadOutcome.ioError invalidMagicMsg ⟨data, 4⟩ := by
  have h1 : ¬ data.length < 4 := by omega
  simp [read_message, read_magic, ByteStream.read_exact, h1, hmagic]

/-- Witness for claim C6 at the concrete stream beginning with the ASCII
bytes of BAD!. -/
theorem read_message_rejects_bad_magic_witness :
    read_message ⟨[66, 65, 68, 33], 0⟩
      = ReadOutcome.ioError invalidMagicMsg ⟨[66, 65, 68, 33], 4⟩ :=
  read_message_rejects_bad_magic [66, 65, 68, 33] (by decide) (by decide)

/-- Claim C7: for every backend, parse returns a Header exactly when the
input holds at least 15 bytes — shorter inputs give none, and any input of
15 or more bytes gives some decoded Header. -/
theorem parse_isSome_iff_fifteen_bytes (bytes : List Nat) :
    ((StandardHeaderParser.parse bytes).isSome = true ↔ HEADER_SIZE ≤ bytes.length)
    ∧ ((OptimizedHeaderParser.parse bytes).isSome = true ↔ HEADER_SIZE ≤ bytes.length)
    ∧ ((SimdHeaderParser.parse bytes).isSome = true ↔ HEADER_SIZE ≤ bytes.length)
    ∧ ((Simd2HeaderParser.parse bytes).isSome = true ↔ HEADER_SIZE ≤ bytes.length) := by
  refine ⟨?_, ?_, ?_, ?_⟩
  · unfold StandardHeaderParser.parse
    split <;> rename_i hlt <;> simp [HEADER_SIZE] at hlt ⊢ <;> omega
  · unfold OptimizedHeaderParser.parse
    split <;> rename_i hlt <;> simp [HEADER_SIZE] at hlt ⊢ <;> omega
  · unfold SimdHeaderParser.parse
    split <;> rename_i hlt <;> simp [HEADER_SIZE] at hlt ⊢ <;> omega
  · unfold Simd2HeaderParser.parse
    split <;> rename_i hlt <;> simp [HEADER_SIZE] at hlt ⊢ <;> omega

/-- Claim C8: serializing a header constructed with id 200 produces
byte 0 equal to ((200 AND 0x3F) <<< 2) or-ed with (version AND 0x03), for
every version, flags, payload_len and sequence_number; and construction
itself stores id 200 unmasked. -/
theorem serialize_id200_truncation (version : Nat) (flags : MessageFlags)
    (payload_len sequence_number : Nat) :
    (StandardHeaderParser.serialize
        (Header.new 200 version flags payload_len sequence_number)).headD 0
      = ((200 &&& 0x3F) <<< 2) ||| (version &&& 0x03)
    ∧ (Header.new 200 version flags payload_len sequence_number).id = 200 := by
  exact ⟨rfl, rfl⟩

/-- Claim C9: the streaming parse_bytes, for any backend parse function,
advances the buffer's read cursor by exactly 15 bytes (leaving the backing
data untouched) when it returns a Header, and returns the buffer
completely unchanged when it returns no value. -/
theorem parse_bytes_cursor_discipline (p : List Nat → Option Header) (b : ByteCursor) :
    ((parse_bytes p b).1.isSome = true →
      (parse_bytes p b).2.pos = b.pos + HEADER_SIZE ∧ (parse_bytes p b).2.data = b.data)
    ∧ ((parse_bytes p b).1 = none → (parse_bytes p b).2 = b) := by
  unfold parse_bytes
  split
  · simp
  · cases hp : p (b.slice HEADER_SIZE) <;> simp [ByteCursor.advance]

/-- Witness for claim C9 at the concrete Standard backend applied to a
buffer holding the repository's 15-byte test vector at cursor 0. -/
theorem parse_bytes_cursor_discipline_witness :
    (parse_bytes StandardHeaderParser.parse ⟨TEST_VECTOR, 0⟩).2.pos = 0 + HEADER_SIZE
    ∧ (parse_bytes StandardHeaderParser.parse ⟨TEST_VECTOR, 0⟩).2.data = TEST_VECTOR :=
  (parse_bytes_cursor_discipline StandardHeaderParser.parse ⟨TEST_VECTOR, 0⟩).1 (by decide)

/-- Every Header a backend's parse emits has id at most 15 and version at
most 3: byte 0 is masked with 0x3F before the right shift by 2, so only 4
bits can reach the id (claim C10). -/
theorem parse_output_id_version_bounded (bytes : List Nat) (h : Header)
    (hp : StandardHeaderParser.parse bytes = some h
      ∨ OptimizedHeaderParser.parse bytes = some h
      ∨ SimdHeaderParser.parse bytes = some h
      ∨ Simd2HeaderParser.parse bytes = some h) :
    h.id ≤ 15 ∧ h.version ≤ 3 := by
  have hb : ∀ b : Nat,
      (b &&& Header.LAST_SIX_BITS) >>> 2 ≤ 15 ∧ b &&& Header.LAST_TWO_BITS ≤ 3 := by
    intro b
    have h1 : b &&& Header.LAST_SIX_BITS ≤ 63 := Nat.and_le_right
    have h2 : (b &&& Header.LAST_SIX_BITS) >>> 2 = (b &&& Header.LAST_SIX_BITS) / 4 := by
      simp [Nat.shiftRight_eq_div_pow]
    have h3 : b &&& Header.LAST_TWO_BITS ≤ 3 := Nat.and_le_right
    exact ⟨by omega, h3⟩
  rcases hp with hp | hp | hp | hp
  · unfold StandardHeaderParser.parse at hp
    split at hp
    · exact absurd hp (by simp)
    · simp only [Option.some.injEq] at hp
      subst hp
      exact hb _
  · unfold OptimizedHeaderParser.parse at hp
    split at hp
    · exact absurd hp (by simp)
    · simp only [Option.some.injEq] at hp
      subst hp
      exact hb _
  · unfold SimdHeaderParser.parse at hp
    split at hp
    · exact absurd hp (by simp)
    · simp only [Option.some.injEq] at hp
      subst hp
      exact hb _
  · unfold Simd2HeaderParser.parse at hp
    split at hp
    · exact absurd hp (by simp)
    · simp only [Option.some.injEq] at hp
      subst hp
      exact hb _

/-- Witness for claim C10 at the all-0xFF 15-byte input: the Standard
backend decodes it to the header with id 15 and version 3, and the bounds
hold there. -/
theorem parse_output_id_version_bounded_witness :
    (Header.new 15 3 (MessageFlags.ofU16 65535) 4294967295 18446744073709551615).id ≤ 15
    ∧ (Header.new 15 3 (MessageFlags.ofU16 65535) 4294967295 18446744073709551615).version ≤ 3 :=
  parse_output_id_version_bounded (List.replicate 15 255)
    (Header.new 15 3 (MessageFlags.ofU16 65535) 4294967295 18446744073709551615)
    (Or.inl (by decide))

end Nexsock
